import Mathlib

/-!
Verification of the crawl orchestration and persistence pipeline of
TSV-AI/Crawler-2.2 (src/main.py, src/utils/data_utils.py, src/config.py).

The Python code is shallowly embedded: dictionaries of extracted venue data
become association lists over a `Value` type of Python scalars; the
pagination `while` loop of `crawl_venues` becomes a structurally recursive
function whose fuel argument is the number of loop iterations still allowed
by the `page_number <= max_pages` guard; the external effects (the
fetch-and-extract adapter, the asyncpg pool, the batched insert, webhook
delivery) become explicit parameters recording their outcome, since those
collaborators live outside the repository.
-/

/-- A Python scalar value as it appears in an extracted venue dictionary:
`None`, an `int`, a `float` (modelled exactly as a rational), or a `str`. -/
inductive Value where
  | null
  | intV (n : Int)
  | floatV (q : ℚ)
  | strV (s : String)
deriving DecidableEq, Repr

/-- A Python exception, restricted to the kinds raised or caught in
main.py / data_utils.py: `ConnectionError`, `ValueError` (also standing for
`TypeError` from a failed numeric coercion), and any other `Exception`. -/
inductive PyErr where
  | connectionError
  | valueError
  | otherError
deriving DecidableEq, Repr

/-- A venue candidate record: a Python dict modelled as an association list
from key to value (first binding wins, as in a dict there is one binding
per key). -/
abbrev Venue := List (String × Value)

/-- Python `key in venue`: the key is present, whatever its value
(including `None`). -/
def hasKey (venue : Venue) (key : String) : Bool :=
  venue.any (fun kv => kv.1 == key)

/-- Python `venue.get(key)`: the bound value when the key is present, else
`None`. An absent key and a key bound to `None` are indistinguishable
through this accessor, exactly as in Python. -/
def getPy (venue : Venue) (key : String) : Value :=
  match venue.find? (fun kv => kv.1 == key) with
  | some kv => kv.2
  | none => Value.null

/-- data_utils.is_complete_venue: `all(key in venue for key in required_keys)`.
Note it tests key presence only; values are not inspected. -/
def is_complete_venue (venue : Venue) (required_keys : List String) : Bool :=
  required_keys.all (fun key => hasKey venue key)

/-- data_utils.is_duplicate_venue: `venue_name in seen_names`, with the
run-scoped `seen_names` set modelled as a list. -/
def is_duplicate_venue (venue_name : String) (seen_names : List String) : Bool :=
  seen_names.contains venue_name

/-! ## Pagination Controller (main.py `crawl_venues`, lines 72-107) -/

/-- Why the pagination loop stopped. The source's `while` loop exits either
by the `break` on `no_results_found` (end-of-results signal), or by the
`page_number <= max_pages` guard turning false. `emptyPageWithNoSignal` is
the third reason named by the specification; it is included so that
statements about it can be compared with the code, which never produces it
(the code's comment at main.py line 95-96 documents continuing to the next
page in that case). -/
inductive TermReason where
  | maxPagesReached
  | endOfResultsSignal
  | emptyPageWithNoSignal
deriving DecidableEq, Repr

/-- The observable outcome of one run of the pagination loop: the
accumulator `all_venues_collected`, the pages at which the adapter
(`fetch_and_process_page`) was invoked, in order, and the reason the loop
stopped. -/
structure CrawlResult (α : Type) where
  collected : List α
  pagesFetched : List Nat
  reason : TermReason
deriving DecidableEq, Repr

/-- The `while page_number <= max_pages` loop of crawl_venues. The adapter
is the external `fetch_and_process_page`, abstracted as a function from the
page number to `(venues_from_page, no_results_found)`. The first argument
is the number of iterations the guard still allows, i.e.
`max_pages + 1 - page_number`: it is `0` exactly when `page_number > max_pages`
(reason `max-pages-reached`), and on each iteration `page_number` increments
while the allowance decrements. On `no_results_found` the loop breaks before
extending the accumulator with that page's candidates. -/
def crawlLoop {α : Type} (adapter : Nat → List α × Bool) :
    Nat → Nat → List α → List Nat → CrawlResult α
  | 0, _page, acc, fetched => ⟨acc, fetched, .maxPagesReached⟩
  | remaining + 1, page, acc, fetched =>
    let step := adapter page
    if step.2 then ⟨acc, fetched ++ [page], .endOfResultsSignal⟩
    else crawlLoop adapter remaining (page + 1) (acc ++ step.1) (fetched ++ [page])

/-- The pagination loop as entered by crawl_venues: `page_number = 1`,
empty accumulator, bounded by the configured maximum page count. -/
def crawl_venues_loop {α : Type} (adapter : Nat → List α × Bool) (max_pages : Nat) :
    CrawlResult α :=
  crawlLoop adapter max_pages 1 [] []

/-- main.py line 75: `max_pages = 2  # Adjust as needed`. -/
def max_pages : Nat := 2

/-- crawl_venues with the source's hard-coded page bound. -/
def crawl_venues {α : Type} (adapter : Nat → List α × Bool) : CrawlResult α :=
  crawl_venues_loop adapter max_pages

/-! ## Numeric coercion (the `float(...)` / `int(...)` calls of
data_utils.save_venues_to_db, lines 150-151) -/

/-- The numeric value of a decimal digit, `none` for any other character. -/
def digitVal (c : Char) : Option Nat :=
  if '0' ≤ c ∧ c ≤ '9' then some (c.toNat - 48) else none

/-- Reads a non-empty run of decimal digits left to right. -/
def decNatAux (acc : Nat) : List Char → Option Nat
  | [] => some acc
  | c :: cs =>
    match digitVal c with
    | some d => decNatAux (acc * 10 + d) cs
    | none => none

/-- The natural number denoted by a non-empty all-digit character list,
`none` otherwise. -/
def decNatOfChars (cs : List Char) : Option Nat :=
  if cs.isEmpty then none else decNatAux 0 cs

/-- Splits a character list at the first `'.'`, reporting whether one was
found. -/
def breakDot : List Char → List Char × Option (List Char)
  | [] => ([], none)
  | c :: cs =>
    if c = '.' then ([], some cs)
    else
      let rest := breakDot cs
      (c :: rest.1, rest.2)

/-- Model of Python `float(s)` on a string: succeeds on plain decimal
literals `digits` or `digits.digits`, optionally negated, and fails on
anything else (in particular on free text, where Python raises
`ValueError`). Exotic accepted forms of the builtin (leading `.5`,
trailing `5.`, exponents, `inf`, surrounding whitespace) are outside the
model; no claim depends on them. -/
def pyFloatOfChars (cs : List Char) : Option ℚ :=
  match breakDot cs with
  | (intPart, none) => (decNatOfChars intPart).map (fun n => (n : ℚ))
  | (intPart, some fracPart) =>
    if fracPart.any (fun c => c == '.') then none
    else
      match decNatOfChars intPart, decNatOfChars fracPart with
      | some n, some m => some ((n : ℚ) + (m : ℚ) / (10 : ℚ) ^ fracPart.length)
      | _, _ => none

/-- See `pyFloatOfChars`. -/
def pyFloatOfString (s : String) : Option ℚ :=
  match s.data with
  | '-' :: cs => (pyFloatOfChars cs).map (fun q => -q)
  | cs => pyFloatOfChars cs

/-- Model of Python `int(s)` on a string: an optionally negated digit run;
`int("4.5")` fails, as in Python. -/
def pyIntOfString (s : String) : Option Int :=
  match s.data with
  | '-' :: cs => (decNatOfChars cs).map (fun n => -(n : Int))
  | cs => (decNatOfChars cs).map (fun n => (n : Int))

/-- Truncation toward zero, the rounding of Python `int()` on a float. -/
def pyTrunc (q : ℚ) : Int :=
  if 0 ≤ q then ⌊q⌋ else ⌈q⌉

/-- Python `float(v)` on a scalar: identity on numerics, parse on strings,
failure (`TypeError`) on `None`. -/
def pyFloat : Value → Option ℚ
  | .null => none
  | .intV n => some (n : ℚ)
  | .floatV q => some q
  | .strV s => pyFloatOfString s

/-- Python `int(v)` on a scalar: identity on ints, truncation on floats,
parse on strings, failure on `None`. -/
def pyInt : Value → Option Int
  | .null => none
  | .intV n => some n
  | .floatV q => some (pyTrunc q)
  | .strV s => pyIntOfString s

/-! ## Persistence layer (data_utils.py) -/

/-- The global `DB_POOL` variable: `None` (`uninit`) or a live pool
(`ready`). -/
inductive PoolState where
  | uninit
  | ready
deriving DecidableEq, Repr

/-- The environment variables read by `init_db_pool`; `none` models an
unset variable. -/
structure Env where
  DATABASE_URL : Option String
  PGUSER : Option String
  POSTGRES_USER : Option String
  PGPASSWORD : Option String
  POSTGRES_PASSWORD : Option String
  PGDATABASE : Option String
  POSTGRES_DB : Option String
  PGHOST : Option String
  PGPORT : Option String
deriving DecidableEq, Repr

/-- `os.getenv('PGUSER', os.getenv('POSTGRES_USER'))`. -/
def Env.pg_user (env : Env) : Option String := env.PGUSER <|> env.POSTGRES_USER

/-- `os.getenv('PGPASSWORD', os.getenv('POSTGRES_PASSWORD'))`. -/
def Env.pg_password (env : Env) : Option String := env.PGPASSWORD <|> env.POSTGRES_PASSWORD

/-- `os.getenv('PGDATABASE', os.getenv('POSTGRES_DB'))`. -/
def Env.pg_db (env : Env) : Option String := env.PGDATABASE <|> env.POSTGRES_DB

/-- `os.getenv('PGHOST')`. -/
def Env.pg_host (env : Env) : Option String := env.PGHOST

/-- `os.getenv('PGPORT', '5432')`. -/
def Env.pg_port (env : Env) : String := env.PGPORT.getD "5432"

/-- DSN resolution in `init_db_pool` (data_utils.py lines 62-75): use
`DATABASE_URL` when set, else assemble the URL from the discrete `PG*`
variables, raising `ValueError` when `pg_user`, `pg_password`, `pg_db` or
`pg_host` is missing. -/
def resolve_database_url (env : Env) : Except PyErr String :=
  match env.DATABASE_URL with
  | some url => .ok url
  | none =>
    match env.pg_user, env.pg_password, env.pg_db, env.pg_host with
    | some u, some p, some d, some h =>
      .ok ("postgresql://" ++ u ++ ":" ++ p ++ "@" ++ h ++ ":" ++ env.pg_port ++ "/" ++ d)
    | _, _, _, _ => .error .valueError

/-- What one call to `init_db_pool` did: the resulting `DB_POOL` state, how
many times schema setup (`create_venues_table`) ran inside the call, and
the call's own outcome (normal return or raised exception). -/
structure InitResult where
  state : PoolState
  schemaSetupRuns : Nat
  outcome : Except PyErr Unit
deriving Repr

/-- data_utils.init_db_pool (lines 50-93). `connectOk` is the outcome of
the external `asyncpg.create_pool`, `schemaOk` that of the DDL statement
inside `create_venues_table`. If `DB_POOL` is already set the call returns
at once; the whole body is wrapped in a handler that resets `DB_POOL` to
`None` and re-raises on any failure. -/
def init_db_pool (st : PoolState) (env : Env) (connectOk : Bool) (schemaOk : Bool) :
    InitResult :=
  match st with
  | .ready => ⟨.ready, 0, .ok ()⟩
  | .uninit =>
    match resolve_database_url env with
    | .error e => ⟨.uninit, 0, .error e⟩
    | .ok _ =>
      if connectOk then
        if schemaOk then ⟨.ready, 1, .ok ()⟩
        else ⟨.uninit, 1, .error .otherError⟩
      else ⟨.uninit, 0, .error .connectionError⟩

/-- data_utils.close_db_pool (lines 182-194). If `DB_POOL` is falsy, do
nothing; else close it, swallowing any error from `pool.close()`
(`closeOk` is its outcome), and in all cases reset `DB_POOL = None` in the
`finally` block. It never raises. -/
def close_db_pool (st : PoolState) (closeOk : Bool) : PoolState × Except PyErr Unit :=
  match st, closeOk with
  | .uninit, _ => (.uninit, .ok ())
  | .ready, _ => (.uninit, .ok ())

/-- One tuple of `data_to_insert` (data_utils.py lines 145-153): the raw
`venue.get(...)` values for name, location, price, capacity and
description, plus the coerced rating and review count. -/
structure Row where
  name : Value
  location : Value
  price : Value
  capacity : Value
  rating : ℚ
  reviews : Int
  description : Value
deriving Repr

/-- Builds one `data_to_insert` tuple (data_utils.py lines 145-153). The
rating is `float(venue.get('rating', 0.0) if venue.get('rating') is not None else 0.0)`:
`0.0` when the key is absent or bound to `None`, else `float(value)`, which
raises on a non-coercible value; review count likewise with `int(...)` and
default `0`. This step runs before the guarded insert block, so its
exceptions propagate. -/
def coerce_venue_row (venue : Venue) : Except PyErr Row := do
  let rating : ℚ ←
    match getPy venue "rating" with
    | .null => Except.ok (0 : ℚ)
    | v =>
      match pyFloat v with
      | some q => Except.ok q
      | none => Except.error .valueError
  let reviews : Int ←
    match getPy venue "reviews" with
    | .null => Except.ok (0 : Int)
    | v =>
      match pyInt v with
      | some n => Except.ok n
      | none => Except.error .valueError
  Except.ok ⟨getPy venue "name", getPy venue "location", getPy venue "price",
    getPy venue "capacity", rating, reviews, getPy venue "description"⟩

/-- data_utils.save_venues_to_db (lines 126-179). Raises `ConnectionError`
when `DB_POOL` is unset; returns `0` on an empty list; builds
`data_to_insert` (whose coercion errors propagate, being outside the
`try`); then runs the batched `INSERT ... ON CONFLICT (name, location) DO NOTHING`,
modelled by `insertOk`: on success it returns `len(venues_list)` (the
count submitted, conflicts silently skipped by the store), and on any
exception from the insert it returns `0` instead of raising. -/
def save_venues_to_db (st : PoolState) (insertOk : Bool) (venues_list : List Venue) :
    Except PyErr Nat :=
  match st with
  | .uninit => .error .connectionError
  | .ready =>
    if venues_list.isEmpty then .ok 0
    else
      match venues_list.mapM coerce_venue_row with
      | .error e => .error e
      | .ok _rows => if insertOk then .ok venues_list.length else .ok 0

/-! ## Completion Notifier (main.py `send_completion_webhook`, lines 24-49) -/

/-- What the external HTTP POST did: a response with some status code, an
`httpx.RequestError` (network failure / timeout), or any other exception. -/
inductive DeliveryOutcome where
  | delivered (statusCode : Nat)
  | requestError
  | otherError
deriving DecidableEq, Repr

/-- The JSON body POSTed by `send_completion_webhook`. -/
structure Payload where
  status : String
  message : String
  venues_processed_count : Nat
  service_name : String
deriving DecidableEq, Repr

/-- The observable behaviour of one `send_completion_webhook` call: the
payload handed to `client.post` (`none` when the call skipped delivery),
whether delivery succeeded with a non-error status, which error was logged
if any, and which exception escaped the call (`none` when it returned
normally). -/
structure WebhookResult where
  sent : Option Payload
  deliveredOk : Bool
  errorLogged : Option String
  raised : Option PyErr
deriving DecidableEq, Repr

/-- main.py send_completion_webhook (lines 24-49). When
`COMPLETION_WEBHOOK_URL` is unset the call logs and returns. Otherwise it
POSTs the payload; `response.raise_for_status()` raises
`httpx.HTTPStatusError` for status codes >= 400, and the three `except`
clauses catch `RequestError`, `HTTPStatusError` and every other
`Exception`, logging each, so nothing escapes. -/
def send_completion_webhook (webhook_url : Option String) (delivery : DeliveryOutcome)
    (status message : String) (venues_count : Nat) : WebhookResult :=
  match webhook_url with
  | none => ⟨none, false, none, none⟩
  | some _ =>
    let payload : Payload := ⟨status, message, venues_count, "Crawler-2.2"⟩
    match delivery with
    | .delivered code =>
      if 400 ≤ code then ⟨some payload, false, some "HTTPStatusError", none⟩
      else ⟨some payload, true, none, none⟩
    | .requestError => ⟨some payload, false, some "RequestError", none⟩
    | .otherError => ⟨some payload, false, some "unexpected", none⟩

/-! ## Top-level run (main.py `main_runner`, lines 128-151) -/

/-- The observable behaviour of one `main_runner` call: the final `DB_POOL`
state after the `finally` block, the status and message passed to the
completion webhook, and the webhook calls made (in order). -/
structure RunnerResult where
  finalPool : PoolState
  crawl_status : String
  status_message : String
  webhookCalls : List WebhookResult
deriving Repr

/-- main.py main_runner (lines 128-151). `crawlOutcome` is what
`crawl_venues()` did: returned a saved-venue count, raised
`ConnectionError`, or raised any other exception. The handlers convert an
exception into a failure status/message with `venues_processed = 0`; the
`finally` block always closes the pool and sends exactly one completion
webhook. -/
def main_runner (st : PoolState) (crawlOutcome : Except PyErr Nat)
    (webhook_url : Option String) (delivery : DeliveryOutcome) (closeOk : Bool) :
    RunnerResult :=
  let venues_processed : Nat :=
    match crawlOutcome with
    | .ok n => n
    | .error _ => 0
  let crawl_status : String :=
    match crawlOutcome with
    | .ok _ => "success"
    | .error _ => "failure"
  let status_message : String :=
    match crawlOutcome with
    | .ok _ => "Crawl completed."
    | .error .connectionError => "Crawl failed: Database connection error"
    | .error _ => "Crawl failed: An unexpected error occurred"
  let closed := close_db_pool st closeOk
  let hook := send_completion_webhook webhook_url delivery crawl_status status_message
    venues_processed
  ⟨closed.1, crawl_status, status_message, [hook]⟩

/-! ## Concrete adapters, venues and environments used as test inputs -/

/-- Whether an embedded Python computation returned normally rather than
raising. -/
def exceptOk {ε α : Type} : Except ε α → Bool
  | .ok _ => true
  | .error _ => false

/-- An adapter whose page 1 is empty with no end-signal, while page 2 (and
any later page) carries one venue and no end-signal. -/
def emptyThenFullAdapter : Nat → List String × Bool :=
  fun p => if p = 1 then ([], false) else (["venue-on-page-2"], false)

/-- An adapter with non-empty candidate pages 1 and 2 and an end-of-results
signal on page 3. -/
def endOnPageThreeAdapter : Nat → List String × Bool :=
  fun p => if p = 1 then (["a1"], false) else if p = 2 then (["b1", "b2"], false)
    else ([], true)

/-- The complete well-formed venue of the specification's end-to-end
scenario. -/
def venueAHall : Venue :=
  [("name", Value.strV "A Hall"), ("location", Value.strV "X"),
   ("price", Value.strV "$$"), ("capacity", Value.strV "200"),
   ("rating", Value.floatV (9 / 2)), ("reviews", Value.intV 10),
   ("description", Value.strV "nice")]

/-- A venue whose `rating` is present but bound to free text that Python's
`float()` cannot coerce. -/
def venueBadRating : Venue :=
  [("name", Value.strV "A Hall"), ("location", Value.strV "X"),
   ("rating", Value.strV "Excellent!")]

/-- A configuration with no composite URL and `PGHOST` unset while the
other discrete parameters are present. -/
def envMissingHost : Env :=
  ⟨none, some "crawler", none, some "secret", none, some "venues", none, none, none⟩

/-! ## Loop invariants of the pagination loop -/

/-- Against an adapter that never sets `no_results_found`, the loop runs
through its whole page allowance, collecting each page's candidates in
page order, and stops because the page guard turns false. -/
lemma crawlLoop_no_signal {α : Type} (adapter : Nat → List α × Bool)
    (hsig : ∀ p, (adapter p).2 = false) :
    ∀ (remaining page : Nat) (acc : List α) (fetched : List Nat),
      crawlLoop adapter remaining page acc fetched =
        ⟨acc ++ (List.range' page remaining).flatMap (fun p => (adapter p).1),
         fetched ++ List.range' page remaining, .maxPagesReached⟩ := by
  intro remaining
  induction remaining with
  | zero => intro page acc fetched; simp [crawlLoop]
  | succ r ih =>
    intro page acc fetched
    rw [crawlLoop, List.range'_succ]
    simp only [hsig page, if_false, Bool.false_eq_true]
    rw [ih (page + 1) (acc ++ (adapter page).1) (fetched ++ [page])]
    simp [List.append_assoc]

/-- If the adapter first sets `no_results_found` at page `p0`, and the page
allowance reaches that far, the loop breaks at `p0`: it collects the
candidates of the pages before `p0` only, and fetches pages up to and
including `p0`. `k` is the distance from the current page to `p0`. -/
lemma crawlLoop_end_signal {α : Type} (adapter : Nat → List α × Bool) (p0 : Nat)
    (hat : (adapter p0).2 = true) :
    ∀ (k m page : Nat) (acc : List α) (fetched : List Nat),
      page + k = p0 →
      (∀ p, page ≤ p → p < p0 → (adapter p).2 = false) →
      crawlLoop adapter (k + m + 1) page acc fetched =
        ⟨acc ++ (List.range' page k).flatMap (fun p => (adapter p).1),
         fetched ++ List.range' page (k + 1), .endOfResultsSignal⟩ := by
  intro k
  induction k with
  | zero =>
    intro m page acc fetched hpage _hbefore
    have hp : page = p0 := by omega
    subst hp
    rw [crawlLoop]
    simp [hat]
  | succ k ih =>
    intro m page acc fetched hpage hbefore
    have hlt : page < p0 := by omega
    have hstep : (k + 1) + m + 1 = (k + m + 1) + 1 := by omega
    rw [hstep, crawlLoop]
    simp only [hbefore page (Nat.le_refl page) hlt, if_false, Bool.false_eq_true]
    rw [ih m (page + 1) (acc ++ (adapter page).1) (fetched ++ [page]) (by omega)
      (fun p hp1 hp2 => hbefore p (by omega) hp2)]
    simp [List.append_assoc, List.range'_succ]

/-! ## Claim C1 -/

/-- C1 counterexample: with the source's `max_pages = 2` and an adapter
returning an empty accepted set on page 1 with `end_signal` false, the
loop does NOT terminate at page 1: it fetches page 2 as well (pages
fetched are `[1, 2]`), the accumulator ends up non-empty, and the
termination reason is the page bound, not `empty-page-with-no-signal`. -/
theorem crawl_empty_page_counterexample :
    crawl_venues emptyThenFullAdapter =
      ⟨["venue-on-page-2"], [1, 2], TermReason.maxPagesReached⟩ := rfl

/-- C1 (amended): when the adapter returns an empty accepted set with
`end_signal` false, the Pagination Controller does not terminate at that
page; it advances to the next page, so a run in which every page is empty
with no end-signal fetches every page from 1 to `max_pages` and ends with
an empty accumulator and reason `max-pages-reached`. -/
theorem crawl_continues_past_empty_pages {α : Type} (adapter : Nat → List α × Bool)
    (maxPages : Nat) (h : ∀ p, adapter p = ([], false)) :
    crawl_venues_loop adapter maxPages =
      ⟨[], List.range' 1 maxPages, TermReason.maxPagesReached⟩ := by
  have hsig : ∀ p, (adapter p).2 = false := fun p => by rw [h p]
  unfold crawl_venues_loop
  rw [crawlLoop_no_signal adapter hsig maxPages 1 [] []]
  simp [h]

/-- C1 witness: the amended statement at the all-empty adapter with the
source's page bound of 2. -/
theorem crawl_continues_past_empty_pages_witness :
    crawl_venues_loop (fun _ => (([] : List String), false)) 2 =
      ⟨[], List.range' 1 2, TermReason.maxPagesReached⟩ :=
  crawl_continues_past_empty_pages (fun _ => (([] : List String), false)) 2 (fun _ => rfl)

/-! ## Claim C2 -/

/-- C2 counterexample: a candidate whose required key `name` is present but
bound to `None` is judged complete by `is_complete_venue` (the function
tests key presence only), contradicting the claim that such a candidate is
incomplete and discarded. -/
theorem is_complete_null_value_counterexample :
    is_complete_venue [("name", Value.null)] ["name"] = true ∧
    getPy [("name", Value.null)] "name" = Value.null := ⟨rfl, rfl⟩

/-- C2 (amended): `is_complete_venue` returns true iff every required key
is present in the candidate, regardless of the bound values — a required
key bound to `None` still counts as complete. -/
theorem is_complete_venue_iff_keys_present (venue : Venue) (required_keys : List String) :
    is_complete_venue venue required_keys = true ↔
      ∀ key ∈ required_keys, hasKey venue key = true := by
  simp [is_complete_venue]

/-! ## Claim C5 -/

/-- C5: when the adapter signals end-of-results at page `p0` (within the
page bound) and not before, the loop terminates at `p0` with reason
`end-of-results-signal`, having fetched pages 1 to `p0` but collected only
the candidates of the pages before `p0`, in page order — page `p0`'s own
candidates are not appended. -/
theorem crawl_stops_on_end_signal {α : Type} (adapter : Nat → List α × Bool)
    (maxPages p0 : Nat) (h1 : 1 ≤ p0) (h2 : p0 ≤ maxPages)
    (hbefore : ∀ p, 1 ≤ p → p < p0 → (adapter p).2 = false)
    (hat : (adapter p0).2 = true) :
    crawl_venues_loop adapter maxPages =
      ⟨(List.range' 1 (p0 - 1)).flatMap (fun p => (adapter p).1),
       List.range' 1 p0, TermReason.endOfResultsSignal⟩ := by
  unfold crawl_venues_loop
  have hm : maxPages = (p0 - 1) + (maxPages - p0) + 1 := by omega
  rw [hm, crawlLoop_end_signal adapter p0 hat (p0 - 1) (maxPages - p0) 1 [] []
    (by omega) (fun p hp1 hp2 => hbefore p hp1 hp2)]
  have hp : p0 - 1 + 1 = p0 := by omega
  rw [hp]
  simp

/-- C5 witness: the end-signal theorem at a concrete adapter signalling on
page 3 with a page bound of 5. -/
theorem crawl_stops_on_end_signal_witness :
    crawl_venues_loop endOnPageThreeAdapter 5 =
      ⟨(List.range' 1 (3 - 1)).flatMap (fun p => (endOnPageThreeAdapter p).1),
       List.range' 1 3, TermReason.endOfResultsSignal⟩ :=
  crawl_stops_on_end_signal endOnPageThreeAdapter 5 3 (by decide) (by decide)
    (fun p hp1 hp2 => by interval_cases p <;> rfl) rfl

/-! ## Claim C6 -/

/-- C6: against an adapter that never signals end-of-results and never
returns an empty page, the loop fetches exactly pages 1, 2, ...,
`max_pages` (the cursor starts at 1 and increments by 1), hence performs
at most `max_pages` iterations; with `max_pages = 0` the body never runs
and the result is an empty accumulator. -/
theorem crawl_terminates_within_max_pages {α : Type} (adapter : Nat → List α × Bool)
    (maxPages : Nat) (hsig : ∀ p, (adapter p).2 = false)
    (hne : ∀ p, (adapter p).1 ≠ []) :
    (crawl_venues_loop adapter maxPages).pagesFetched = List.range' 1 maxPages ∧
    (crawl_venues_loop adapter maxPages).pagesFetched.length ≤ maxPages ∧
    crawl_venues_loop adapter 0 = ⟨[], [], TermReason.maxPagesReached⟩ := by
  have h := crawlLoop_no_signal adapter hsig maxPages 1 [] []
  unfold crawl_venues_loop at h ⊢
  rw [h]
  exact ⟨by simp, by simp, rfl⟩

/-- C6 witness: the termination theorem at a constant single-venue,
never-signalling adapter with a page bound of 3. -/
theorem crawl_terminates_within_max_pages_witness :
    (crawl_venues_loop (fun _ => ((["v"] : List String), false)) 3).pagesFetched =
      List.range' 1 3 ∧
    (crawl_venues_loop (fun _ => ((["v"] : List String), false)) 3).pagesFetched.length ≤ 3 ∧
    crawl_venues_loop (fun _ => ((["v"] : List String), false)) 0 =
      ⟨[], [], TermReason.maxPagesReached⟩ :=
  crawl_terminates_within_max_pages (fun _ => ((["v"] : List String), false)) 3
    (fun _ => rfl) (fun _ => by simp)

/-! ## Claim C3 -/

/-- C3: for a non-empty record list whose rows coerce cleanly,
`save_venues_to_db` returns the length of its input when the batched
insert goes through (the count submitted, not the rows newly inserted,
since conflicting rows are silently skipped by the store), and returns `0`
instead of raising when the batched insert fails with any error. -/
theorem save_returns_attempted_count (venues_list : List Venue)
    (hne : venues_list ≠ [])
    (hco : exceptOk (venues_list.mapM coerce_venue_row) = true) :
    save_venues_to_db .ready true venues_list = .ok venues_list.length ∧
    save_venues_to_db .ready false venues_list = .ok 0 := by
  have hemp : venues_list.isEmpty = false := by
    cases venues_list with
    | nil => exact absurd rfl hne
    | cons a l => rfl
  obtain ⟨rows, hrows⟩ : ∃ rows, venues_list.mapM coerce_venue_row = .ok rows := by
    cases hmap : venues_list.mapM coerce_venue_row with
    | ok r => exact ⟨r, rfl⟩
    | error e => rw [hmap] at hco; exact absurd hco (by simp [exceptOk])
  have hsave : ∀ b : Bool, save_venues_to_db .ready b venues_list =
      if b then .ok venues_list.length else .ok 0 := by
    intro b
    unfold save_venues_to_db
    rw [hemp, hrows]
    rfl
  exact ⟨by simpa using hsave true, by simpa using hsave false⟩

/-- C3 witness: the attempted-count theorem at the one-element list
`[venueAHall]`. -/
theorem save_returns_attempted_count_witness :
    save_venues_to_db .ready true [venueAHall] = .ok 1 ∧
    save_venues_to_db .ready false [venueAHall] = .ok 0 :=
  save_returns_attempted_count [venueAHall] (by simp) (by rfl)

/-! ## Claim C10 -/

/-- C10: on a non-empty list containing a record whose rating is present
but not numerically coercible, `save_venues_to_db` raises the coercion
error (`ValueError`) to its caller — whatever the batched insert would
have done — rather than returning 0: the coercion loop runs before the
guarded insert block, so its exceptions are not swallowed. -/
theorem save_raises_on_uncoercible_rating :
    ([venueBadRating] : List Venue) ≠ [] ∧
    save_venues_to_db .ready true [venueBadRating] = .error .valueError ∧
    save_venues_to_db .ready false [venueBadRating] = .error .valueError :=
  ⟨by simp, rfl, rfl⟩

/-! ## Claim C7 -/

/-- C7: pool lifecycle operations are idempotent. `init_db_pool` on a
ready pool returns immediately with the pool still ready, performing no
schema setup and raising nothing; `close_db_pool` on an uninitialized pool
returns without raising and leaves the state unchanged; and a second close
after any close is likewise a no-op, whatever the close outcomes. -/
theorem pool_lifecycle_idempotent (env : Env) (connectOk schemaOk closeA closeB : Bool)
    (st : PoolState) :
    init_db_pool .ready env connectOk schemaOk = ⟨.ready, 0, .ok ()⟩ ∧
    close_db_pool .uninit closeA = (.uninit, .ok ()) ∧
    close_db_pool (close_db_pool st closeA).1 closeB = (.uninit, .ok ()) := by
  refine ⟨rfl, rfl, ?_⟩
  cases st <;> rfl

/-! ## Claim C8 -/

/-- C8: with no composite `DATABASE_URL` and at least one required
discrete parameter missing, `init_db_pool` raises the configuration
`ValueError` with no pool created and no schema setup run; and on every
failing call, whatever the cause, the pool handle is discarded — the
resulting state is uninitialized, never half-initialized — while the error
propagates. -/
theorem init_db_pool_config_failure (env : Env) (connectOk schemaOk : Bool)
    (hurl : env.DATABASE_URL = none)
    (hmiss : env.pg_user = none ∨ env.pg_password = none ∨ env.pg_db = none ∨
      env.pg_host = none) :
    init_db_pool .uninit env connectOk schemaOk = ⟨.uninit, 0, .error .valueError⟩ ∧
    ∀ (st : PoolState) (env' : Env) (c s : Bool) (e : PyErr),
      (init_db_pool st env' c s).outcome = .error e →
      (init_db_pool st env' c s).state = .uninit := by
  constructor
  · have hres : resolve_database_url env = .error .valueError := by
      unfold resolve_database_url
      rw [hurl]
      cases hu : env.pg_user <;> cases hp : env.pg_password <;>
        cases hd : env.pg_db <;> cases hh : env.pg_host <;>
        first | rfl | simp_all
    simp [init_db_pool, hres]
  · intro st env' c s e hout
    cases st with
    | ready => simp [init_db_pool] at hout
    | uninit =>
      unfold init_db_pool at hout ⊢
      cases hres : resolve_database_url env' with
      | error e' => simp [hres]
      | ok url =>
        cases c with
        | false => simp
        | true =>
          cases s with
          | false => simp
          | true => rw [hres] at hout; simp at hout

/-- C8 witness: the configuration-failure theorem at `envMissingHost`. -/
theorem init_db_pool_config_failure_witness :
    init_db_pool .uninit envMissingHost true true = ⟨.uninit, 0, .error .valueError⟩ :=
  (init_db_pool_config_failure envMissingHost true true rfl
    (Or.inr (Or.inr (Or.inr rfl)))).1

/-! ## Claim C9 -/

/-- No call to the webhook sender ever lets an exception escape: each of
the `except` branches returns normally. -/
lemma send_completion_webhook_raised_none (webhook_url : Option String)
    (delivery : DeliveryOutcome) (status message : String) (venues_count : Nat) :
    (send_completion_webhook webhook_url delivery status message venues_count).raised =
      none := by
  cases webhook_url with
  | none => rfl
  | some u =>
    cases delivery with
    | delivered code => by_cases h : 400 ≤ code <;> simp [send_completion_webhook, h]
    | requestError => rfl
    | otherError => rfl

/-- C9: `send_completion_webhook` never raises to its caller — delivery
errors of every kind (network failure, timeout, non-2xx response, any
other exception) are caught and logged — and with no configured endpoint
the call is a no-op that sends nothing. -/
theorem webhook_never_raises (webhook_url : Option String) (delivery : DeliveryOutcome)
    (status message : String) (venues_count : Nat) :
    (send_completion_webhook webhook_url delivery status message venues_count).raised =
      none ∧
    send_completion_webhook none delivery status message venues_count =
      ⟨none, false, none, none⟩ :=
  ⟨send_completion_webhook_raised_none webhook_url delivery status message venues_count,
   rfl⟩

/-! ## Claim C4 -/

/-- C4: on every exit path of `main_runner` — normal completion of
`crawl_venues`, a `ConnectionError` from the pool lifecycle, or any other
crawl/adapter error — the pool ends uninitialized (teardown ran), exactly
one completion webhook call is made, that call raises nothing, and every
error is converted into status "failure" for the notification rather than
escaping the handler. -/
theorem main_runner_cleanup_and_single_notification (st : PoolState)
    (crawlOutcome : Except PyErr Nat) (webhook_url : Option String)
    (delivery : DeliveryOutcome) (closeOk : Bool) :
    (main_runner st crawlOutcome webhook_url delivery closeOk).finalPool =
      PoolState.uninit ∧
    (main_runner st crawlOutcome webhook_url delivery closeOk).webhookCalls.length = 1 ∧
    (∀ hook ∈ (main_runner st crawlOutcome webhook_url delivery closeOk).webhookCalls,
      hook.raised = none) ∧
    (∀ e : PyErr, crawlOutcome = .error e →
      (main_runner st crawlOutcome webhook_url delivery closeOk).crawl_status =
        "failure") := by
  refine ⟨?_, ?_, ?_, ?_⟩
  · cases st <;> rfl
  · rfl
  · intro hook hmem
    cases crawlOutcome with
    | ok n =>
      simp only [main_runner, List.mem_singleton] at hmem
      rw [hmem]
      exact send_completion_webhook_raised_none webhook_url delivery _ _ _
    | error e =>
      simp only [main_runner, List.mem_singleton] at hmem
      rw [hmem]
      exact send_completion_webhook_raised_none webhook_url delivery _ _ _
  · intro e he
    subst he
    rfl

/-- C4 witness: the cleanup theorem at a failing crawl (a pool
`ConnectionError`) with a configured endpoint whose delivery also fails. -/
theorem main_runner_cleanup_witness :
    (main_runner .ready (.error .connectionError) (some "https://hooks.example")
      .requestError true).finalPool = PoolState.uninit ∧
    (main_runner .ready (.error .connectionError) (some "https://hooks.example")
      .requestError true).crawl_status = "failure" :=
  ⟨(main_runner_cleanup_and_single_notification .ready (.error .connectionError)
      (some "https://hooks.example") .requestError true).1,
   (main_runner_cleanup_and_single_notification .ready (.error .connectionError)
      (some "https://hooks.example") .requestError true).2.2.2 .connectionError rfl⟩
